import Mathlib

/-!
Verification of the booking-conflict, authorization, and property-management
logic of the property-rental backend (routes/bookings, routes/properties,
models/Booking, models/Property).

Modelling conventions:
* Dates are millisecond timestamps, modelled as `Int` (JS `Date` values are
  compared and subtracted as their epoch-millisecond numbers).
* Document ids are `Nat`; the document database collections are Lean lists.
* `Math.ceil(a / b)` on integer operands is modelled as the exact rational
  ceiling `⌈a / b⌉` (for the magnitudes involved the float computation in JS
  agrees with the exact rational result).
* JS truthiness of an optional string field is: present and nonempty.
* Fallible external effects (disk unlink, cloud asset destroy, database
  create) are modelled by explicit oracles passed to the handler.
-/

/-- `Math.ceil(a / b)` for integer `a` and positive integer `b`, computed
as integer ceiling division; `mathCeilDiv_eq_ceil` below shows it equals
the exact rational ceiling. -/
def mathCeilDiv (a b : Int) : Int := (a + b - 1) / b

/-- `Math.ceil(count / limit)` for the pagination metadata (both operands
are nonnegative integers in the routes). -/
def natCeilDiv (a b : Nat) : Nat := (a + b - 1) / b

/-- One day in milliseconds, `1000 * 60 * 60 * 24`. -/
def msPerDay : Int := 86400000

/-- JS truthiness of an optional string request field: the field is present
and is not the empty string. -/
def jsTruthy : Option String → Bool
  | none => false
  | some s => s != ""

/-- Character-level model of `String.prototype.trim`. -/
def charTrim (s : List Char) : List Char :=
  ((s.dropWhile Char.isWhitespace).reverse.dropWhile Char.isWhitespace).reverse

/-- The check `!x || x.trim() === ''` used by the manual property validation:
field absent, empty, or whitespace-only. -/
def strBlank : Option String → Bool
  | none => true
  | some s => charTrim s.data == []

/-- Whether the first character list is an initial segment of the second. -/
def startsWithChars : List Char → List Char → Bool
  | [], _ => true
  | _ :: _, [] => false
  | a :: as, b :: bs => a == b && startsWithChars as bs

/-- Whether the first character list occurs contiguously inside the second. -/
def occursInChars (pat : List Char) : List Char → Bool
  | [] => pat.isEmpty
  | c :: rest => startsWithChars pat (c :: rest) || occursInChars pat rest

/-- Drop characters up to and including the first occurrence of `pat`;
`none` when `pat` does not occur. Models anchoring a regex at a literal
marker inside a URL. -/
def dropToMarker (pat : List Char) : List Char → Option (List Char)
  | [] => none
  | c :: rest =>
      if startsWithChars pat (c :: rest) then some ((c :: rest).drop pat.length)
      else dropToMarker pat rest

/-- Case-insensitive substring test, the model of `new RegExp(pat, 'i')`
applied to a plain (escape-free) pattern. -/
def regexTestCI (pat : String) (s : String) : Bool :=
  occursInChars (pat.data.map Char.toLower) (s.data.map Char.toLower)

/-- The authenticated identity attached to a request by the auth
middleware: `req.user._id` and `req.user.role`. -/
structure Actor where
  id : Nat
  role : String
  deriving Repr, DecidableEq

/-- The required parts of a property location (models/Property `location`). -/
structure Location where
  address : String
  city : String
  country : String
  deriving Repr, DecidableEq

/-- A stored property document (models/Property), restricted to the fields
the verified routes read. -/
structure Property where
  id : Nat
  title : String
  description : String
  price : Int
  location : Location
  images : List String
  propertyType : String
  bedrooms : Option Int
  owner : Nat
  isAvailable : Bool
  views : Int
  createdAt : Int
  deriving Repr, DecidableEq

/-- A stored booking document (models/Booking). -/
structure Booking where
  id : Nat
  property : Nat
  user : Nat
  checkIn : Int
  checkOut : Int
  guests : Int
  totalPrice : Int
  status : String
  paymentStatus : String
  specialRequests : Option String
  cancellationReason : Option String
  cancelledAt : Option Int
  deriving Repr, DecidableEq

/-- The document database: the `Property` and `Booking` collections. -/
structure DB where
  properties : List Property
  bookings : List Booking
  deriving Repr, DecidableEq

/-- A field-level validation error, `{ field, message }`. -/
structure FieldErr where
  field : String
  message : String
  deriving Repr, DecidableEq

/-- A JSON route response: HTTP status, the `success` flag, the `message`,
and the `errors` array (empty unless the route reports field errors). -/
structure Response where
  status : Nat
  success : Bool
  message : String
  errors : List FieldErr := []
  deriving Repr, DecidableEq

/-- Build a response with no field errors. -/
def mkResp (status : Nat) (ok : Bool) (m : String) : Response :=
  { status := status, success := ok, message := m }

/-- `Property.findById`. -/
def findProperty (db : DB) (pid : Nat) : Option Property :=
  db.properties.find? (fun p => p.id == pid)

/-- `Booking.findById`. -/
def findBooking (db : DB) (bid : Nat) : Option Booking :=
  db.bookings.find? (fun b => b.id == bid)

/-- The status filter `status: { $in: ['pending', 'confirmed'] }`. -/
def isActiveStatus (s : String) : Bool :=
  s == "pending" || s == "confirmed"

/-- The conflict condition of the `Booking.findOne` query in POST
/api/bookings: same property, active status, `checkIn <= checkOutDate`
and `checkOut >= checkInDate`. -/
def conflictsWith (b : Booking) (pid : Nat) (cIn cOut : Int) : Bool :=
  b.property == pid && isActiveStatus b.status
    && decide (b.checkIn ≤ cOut) && decide (cIn ≤ b.checkOut)

/-- The `Booking.findOne` conflict query of POST /api/bookings. -/
def findConflicting (db : DB) (pid : Nat) (cIn cOut : Int) : Option Booking :=
  db.bookings.find? (fun b => conflictsWith b pid cIn cOut)

/-- The body of POST /api/bookings after the express-validator layer has
checked that the dates parse; `guests` is the parsed integer. -/
structure CreateBookingReq where
  property : Nat
  checkIn : Int
  checkOut : Int
  guests : Int
  specialRequests : Option String := none
  deriving Repr, DecidableEq

/-- POST /api/bookings. Mirrors the handler order: express-validator check
(`guests >= 1`), property lookup, availability check, conflict query, price
computation, then `Booking.create`. `Booking.create` runs the schema rules
of models/Booking: the pre-validate hook rejecting `checkOut <= checkIn`,
`totalPrice >= 0`, and the 500-character cap on `specialRequests`; a schema
rejection is caught by the handler and surfaces as a 500 whose message is
the error message. -/
def createBooking (db : DB) (actor : Actor) (req : CreateBookingReq)
    (newId : Nat) : Response × DB :=
  if req.guests < 1 then
    (mkResp 400 false "Validation failed", db)
  else
    match findProperty db req.property with
    | none => (mkResp 404 false "Property not found", db)
    | some prop =>
      if !prop.isAvailable then
        (mkResp 400 false "Property is not available for booking", db)
      else
        match findConflicting db req.property req.checkIn req.checkOut with
        | some _ =>
            (mkResp 400 false "Property is already booked for selected dates", db)
        | none =>
          let days := mathCeilDiv (req.checkOut - req.checkIn) msPerDay
          let totalPrice := prop.price * days
          if req.checkOut ≤ req.checkIn then
            (mkResp 500 false "Check-out date must be after check-in date", db)
          else if totalPrice < 0 then
            (mkResp 500 false "Booking validation failed", db)
          else if (match req.specialRequests with
                   | some s => decide (s.length > 500)
                   | none => false) then
            (mkResp 500 false "Booking validation failed", db)
          else
            let b : Booking :=
              { id := newId, property := req.property, user := actor.id,
                checkIn := req.checkIn, checkOut := req.checkOut,
                guests := req.guests, totalPrice := totalPrice,
                status := "pending", paymentStatus := "pending",
                specialRequests := req.specialRequests,
                cancellationReason := none, cancelledAt := none }
            (mkResp 201 true "Booking created successfully",
             { db with bookings := db.bookings ++ [b] })

/-- The body of PUT /api/bookings/:id. -/
structure UpdateReq where
  status : Option String := none
  paymentStatus : Option String := none
  cancellationReason : Option String := none
  deriving Repr, DecidableEq

/-- The `updateData` object assembled by PUT /api/bookings/:id: the fields
it can ever carry. -/
structure UpdateData where
  status : Option String := none
  cancelledAt : Option Int := none
  cancellationReason : Option String := none
  paymentStatus : Option String := none
  deriving Repr, DecidableEq

/-- Assemble `updateData` exactly as the handler does: a truthy `status` is
copied; when it is the string `cancelled`, `cancelledAt` is stamped with the
current time and a truthy `cancellationReason` is copied; a truthy
`paymentStatus` is copied only when `canSetPayment` (property owner or
admin) holds. -/
def buildUpdateData (req : UpdateReq) (now : Int) (canSetPayment : Bool) :
    UpdateData :=
  { status := if jsTruthy req.status then req.status else none,
    cancelledAt :=
      if jsTruthy req.status && req.status == some "cancelled" then some now
      else none,
    cancellationReason :=
      if jsTruthy req.status && req.status == some "cancelled"
          && jsTruthy req.cancellationReason then req.cancellationReason
      else none,
    paymentStatus :=
      if jsTruthy req.paymentStatus && canSetPayment then req.paymentStatus
      else none }

/-- The enum of models/Booking `status`. -/
def statusValues : List String := ["pending", "confirmed", "cancelled", "completed"]

/-- The enum of models/Booking `paymentStatus`. -/
def paymentValues : List String := ["pending", "paid", "refunded"]

/-- The update validators run by `findByIdAndUpdate` with
`runValidators: true`: each path present in `updateData` must satisfy its
schema rule (status enum, paymentStatus enum, reason length cap). -/
def validUpdateData (u : UpdateData) : Bool :=
  (match u.status with
   | none => true
   | some s => statusValues.contains s) &&
  (match u.paymentStatus with
   | none => true
   | some s => paymentValues.contains s) &&
  (match u.cancellationReason with
   | none => true
   | some s => decide (s.length ≤ 500))

/-- Apply `updateData` to a booking document: the fields present in the
update object overwrite the stored ones, everything else is kept. -/
def applyBookingUpdate (b : Booking) (u : UpdateData) : Booking :=
  { b with
    status := u.status.getD b.status,
    paymentStatus := u.paymentStatus.getD b.paymentStatus,
    cancellationReason :=
      match u.cancellationReason with
      | some r => some r
      | none => b.cancellationReason,
    cancelledAt :=
      match u.cancelledAt with
      | some t => some t
      | none => b.cancelledAt }

/-- PUT /api/bookings/:id. Mirrors the handler: booking lookup, populate of
the referenced property (a dangling reference crashes into the catch-all
500), the authorization check, `updateData` assembly, and
`findByIdAndUpdate` with validators (a validator rejection is caught and
surfaces as the 500 of the handler). -/
def updateBooking (db : DB) (bid : Nat) (actor : Actor) (req : UpdateReq)
    (now : Int) : Response × DB :=
  match findBooking db bid with
  | none => (mkResp 404 false "Booking not found", db)
  | some b =>
    match findProperty db b.property with
    | none => (mkResp 500 false "Server error while updating booking", db)
    | some prop =>
      let isOwner := b.user == actor.id
      let isPropertyOwner := prop.owner == actor.id
      let isAdmin := actor.role == "admin"
      if !isOwner && !isPropertyOwner && !isAdmin then
        (mkResp 403 false "Not authorized to update this booking", db)
      else
        let u := buildUpdateData req now (isPropertyOwner || isAdmin)
        if validUpdateData u then
          (mkResp 200 true "Booking updated successfully",
           { db with bookings :=
               db.bookings.map (fun q => if q.id == bid then applyBookingUpdate q u else q) })
        else
          (mkResp 500 false "Server error while updating booking", db)

/-- The image asset stores: the set of files on local disk (keyed by the
stored image path; the `path.join` to an absolute path is a bijection on
keys and is elided) and the set of Cloudinary assets (keyed by public id). -/
structure AssetState where
  localFiles : List String
  cloudAssets : List String
  deriving Repr, DecidableEq

/-- `fs.existsSync` on the local store. -/
def existsLocal (st : AssetState) (p : String) : Bool :=
  st.localFiles.contains p

/-- The effect of a successful `fs.unlinkSync`. -/
def localUnlink (st : AssetState) (p : String) : AssetState :=
  { st with localFiles := st.localFiles.filter (fun q => q != p) }

/-- The effect of a successful `cloudinary.uploader.destroy`. -/
def cloudDestroy (st : AssetState) (pubId : String) : AssetState :=
  { st with cloudAssets := st.cloudAssets.filter (fun q => q != pubId) }

/-- The `imageUrl.match(/\/property-rental\/properties\/([^/.]+)/)` step of
DELETE /api/properties/:id, returning the reconstructed public id. -/
def extractPublicId (url : String) : Option String :=
  match dropToMarker "/property-rental/properties/".data url.data with
  | none => none
  | some rest =>
    let idChars := rest.takeWhile (fun c => c != '/' && c != '.')
    if idChars.isEmpty then none
    else some (String.mk ("property-rental/properties/".data ++ idChars))

/-- The Cloudinary branch of the image cleanup in DELETE
/api/properties/:id: for every image URL whose public id can be extracted,
a `destroy` is issued whose rejection is swallowed by `.catch` (the oracle
`destroyFails` tells which destroys fail); control flow never faults. -/
def destroyPropertyImages (destroyFails : String → Bool) :
    List String → AssetState → AssetState
  | [], st => st
  | url :: rest, st =>
    match extractPublicId url with
    | some pubId =>
        destroyPropertyImages destroyFails rest
          (if destroyFails pubId then st else cloudDestroy st pubId)
    | none => destroyPropertyImages destroyFails rest st

/-- The local-disk cleanup loop (`forEach` with `fs.existsSync` then
`fs.unlinkSync`): files present on disk are unlinked in order; a failing
`unlinkSync` (oracle `unlinkFails`) throws, aborting the loop. The boolean
of the result records whether the loop threw. -/
def unlinkEach (unlinkFails : String → Bool) :
    List String → AssetState → AssetState × Bool
  | [], st => (st, false)
  | p :: rest, st =>
    if existsLocal st p then
      if unlinkFails p then (st, true)
      else unlinkEach unlinkFails rest (localUnlink st p)
    else unlinkEach unlinkFails rest st

/-- DELETE /api/properties/:id: lookup, ownership-or-admin check, image
cleanup in the mode selected by `useCloudinary`, then
`Property.findByIdAndDelete`. In the Cloudinary branch destroy rejections
are swallowed, so deletion always proceeds; in the local branch a throwing
`unlinkSync` falls into the catch and answers 500 before the database
deletion is reached. -/
def deletePropertyHandler (useCloudinary : Bool)
    (unlinkFails destroyFails : String → Bool) (db : DB) (assets : AssetState)
    (actor : Actor) (pid : Nat) : Response × DB × AssetState :=
  match findProperty db pid with
  | none => (mkResp 404 false "Property not found", db, assets)
  | some prop =>
    if prop.owner != actor.id && actor.role != "admin" then
      (mkResp 403 false "Not authorized to delete this property", db, assets)
    else
      if useCloudinary then
        let assets2 := destroyPropertyImages destroyFails prop.images assets
        (mkResp 200 true "Property deleted successfully",
         { db with properties := db.properties.filter (fun p => p.id != pid) },
         assets2)
      else
        let r := unlinkEach unlinkFails prop.images assets
        if r.2 then
          (mkResp 500 false "Server error while deleting property", db, r.1)
        else
          (mkResp 200 true "Property deleted successfully",
           { db with properties := db.properties.filter (fun p => p.id != pid) },
           r.1)

/-- A file uploaded by multer: its `path` (local disk path or Cloudinary
URL) and its `filename` (local basename or Cloudinary public id). -/
structure UploadedFile where
  path : String
  filename : Option String := none
  deriving Repr, DecidableEq

/-- The parsed `req.body.data` of POST /api/properties, restricted to the
fields the manual validation inspects. `price` is an optional JSON number:
`isNaN` is false for every number in this model, and `0` is falsy. -/
structure RawLocation where
  address : Option String := none
  city : Option String := none
  country : Option String := none
  deriving Repr, DecidableEq

/-- The parsed property payload of POST /api/properties. -/
structure RawPropertyData where
  title : Option String := none
  description : Option String := none
  price : Option Int := none
  location : Option RawLocation := none
  deriving Repr, DecidableEq

/-- The `!propertyData.price || isNaN(propertyData.price)` check: absent
price, or the falsy number `0` (no number is NaN in this model). -/
def priceMissing : Option Int → Bool
  | none => true
  | some v => v == 0

/-- The manual field validation of POST /api/properties, producing the
`errors` array in the order the handler pushes them. -/
def validateNewProperty (d : RawPropertyData) : List FieldErr :=
  (if strBlank d.title then
     [{ field := "title", message := "Title is required" }] else []) ++
  (if strBlank d.description then
     [{ field := "description", message := "Description is required" }] else []) ++
  (if priceMissing d.price then
     [{ field := "price", message := "Price must be a valid number" }] else []) ++
  (if strBlank (d.location.bind (fun l => l.address)) then
     [{ field := "location.address", message := "Address is required" }] else []) ++
  (if strBlank (d.location.bind (fun l => l.city)) then
     [{ field := "location.city", message := "City is required" }] else []) ++
  (if strBlank (d.location.bind (fun l => l.country)) then
     [{ field := "location.country", message := "Country is required" }] else [])

/-- The Cloudinary rollback loop of POST /api/properties: destroy each
uploaded file that has a `filename`; rejections are swallowed by `.catch`. -/
def destroyUploaded (destroyFails : String → Bool) :
    List UploadedFile → AssetState → AssetState
  | [], st => st
  | f :: rest, st =>
    match f.filename with
    | some fn =>
        destroyUploaded destroyFails rest
          (if destroyFails fn then st else cloudDestroy st fn)
    | none => destroyUploaded destroyFails rest st

/-- The rollback block repeated in POST /api/properties: delete every
uploaded file from the asset store of the active mode. The boolean records
whether a local `unlinkSync` threw (the Cloudinary branch never throws). -/
def deleteUploadedFiles (useCloudinary : Bool)
    (unlinkFails destroyFails : String → Bool) (files : List UploadedFile)
    (st : AssetState) : AssetState × Bool :=
  if useCloudinary then (destroyUploaded destroyFails files st, false)
  else unlinkEach unlinkFails (files.map (fun f => f.path)) st

/-- The image references stored on a created property: Cloudinary URLs
(`file.path`) or local paths built from the filename. -/
def propertyImagePaths (useCloudinary : Bool) (files : List UploadedFile) :
    List String :=
  if useCloudinary then files.map (fun f => f.path)
  else files.map (fun f => "/uploads/properties/" ++ f.filename.getD "undefined")

/-- The schema rules of models/Property checked again by `Property.create`
for the fields of this model: title and description caps and nonnegative
price. -/
def propertySchemaOk (d : RawPropertyData) : Bool :=
  (match d.title with
   | some s => decide (s.length ≤ 100)
   | none => false) &&
  (match d.description with
   | some s => decide (s.length ≤ 1000)
   | none => false) &&
  (match d.price with
   | some v => decide (0 ≤ v)
   | none => false)

/-- POST /api/properties. On validation failure the uploaded files are
rolled back and a 400 with the field errors is sent; if the rollback loop
itself throws (local mode only), control falls into the catch, which runs
the rollback again and answers the generic 500 (a throw inside the catch
would leave the request without a structured reply; it is modelled as the
same 500). On a create failure (store fault, oracle `persistFails`, or a
schema rejection) the catch rolls the files back and answers 500. On
success the property is stored with the uploaded image references and the
acting identity as owner. -/
def createPropertyHandler (useCloudinary : Bool)
    (unlinkFails destroyFails : String → Bool) (persistFails : Bool)
    (db : DB) (assets : AssetState) (actor : Actor) (d : RawPropertyData)
    (files : List UploadedFile) (newId : Nat) (now : Int) :
    Response × DB × AssetState :=
  let errs := validateNewProperty d
  if errs.isEmpty then
    if persistFails || !propertySchemaOk d then
      let r := deleteUploadedFiles useCloudinary unlinkFails destroyFails files assets
      (mkResp 500 false "Server error while creating property", db, r.1)
    else
      let prop : Property :=
        { id := newId,
          title := (d.title.getD ""),
          description := (d.description.getD ""),
          price := (d.price.getD 0),
          location :=
            { address := ((d.location.bind (fun l => l.address)).getD ""),
              city := ((d.location.bind (fun l => l.city)).getD ""),
              country := ((d.location.bind (fun l => l.country)).getD "") },
          images := propertyImagePaths useCloudinary files,
          propertyType := "apartment", bedrooms := none,
          owner := actor.id, isAvailable := true, views := 0,
          createdAt := now }
      (mkResp 201 true "Property created successfully",
       { db with properties := db.properties ++ [prop] }, assets)
  else
    let r := deleteUploadedFiles useCloudinary unlinkFails destroyFails files assets
    if r.2 then
      let r2 := deleteUploadedFiles useCloudinary unlinkFails destroyFails files r.1
      (mkResp 500 false "Server error while creating property", db, r2.1)
    else
      ({ status := 400, success := false, message := "Validation failed",
         errors := errs }, db, r.1)

/-- The query parameters of GET /api/properties, after the destructuring
defaults `page = 1`, `limit = 10`, `sortBy = 'createdAt'`,
`order = 'desc'` for absent fields (`sortBy` and `order` are kept optional
here and defaulted in the handler). -/
structure ListParams where
  page : Nat := 1
  limit : Nat := 10
  search : Option String := none
  city : Option String := none
  minPrice : Option Int := none
  maxPrice : Option Int := none
  propertyType : Option String := none
  bedrooms : Option Int := none
  isAvailable : Option String := none
  sortBy : Option String := none
  order : Option String := none
  deriving Repr, DecidableEq

/-- The filter query built by GET /api/properties, evaluated against one
property document. The `$text` index semantics is external to this
repository and is passed in as `textSearch`. -/
def matchesQuery (textSearch : String → Property → Bool) (q : ListParams)
    (p : Property) : Bool :=
  (match q.search with
   | none => true
   | some s => textSearch s p) &&
  (match q.city with
   | none => true
   | some c => regexTestCI c p.location.city) &&
  (match q.minPrice with
   | none => true
   | some v => decide (v ≤ p.price)) &&
  (match q.maxPrice with
   | none => true
   | some v => decide (p.price ≤ v)) &&
  (match q.propertyType with
   | none => true
   | some t => p.propertyType == t) &&
  (match q.bedrooms with
   | none => true
   | some n => p.bedrooms == some n) &&
  (match q.isAvailable with
   | none => true
   | some s => p.isAvailable == (s == "true"))

/-- The sortable field values of the dynamic `sortOptions[sortBy]` key, for
the numeric fields of this model; an unknown key sorts all documents as
equal. -/
def sortValue (field : String) (p : Property) : Int :=
  if field == "createdAt" then p.createdAt
  else if field == "price" then p.price
  else if field == "views" then p.views
  else 0

/-- Stable insertion into a sorted list, the model of the store-side sort. -/
def insertSorted (le : Property → Property → Bool) (x : Property) :
    List Property → List Property
  | [] => [x]
  | y :: rest => if le x y then x :: y :: rest else y :: insertSorted le x rest

/-- Stable sort of the matched documents, the model of `.sort(sortOptions)`. -/
def sortProperties (le : Property → Property → Bool) :
    List Property → List Property
  | [] => []
  | x :: rest => insertSorted le x (sortProperties le rest)

/-- Descending creation-time order, the default sort of the listing. -/
def byCreatedAtDesc (a b : Property) : Bool :=
  decide (b.createdAt ≤ a.createdAt)

/-- The payload of the GET /api/properties response. -/
structure ListResult where
  items : List Property
  totalPages : Nat
  currentPage : Nat
  total : Nat
  deriving Repr, DecidableEq

/-- GET /api/properties: build the filter query, sort by the requested (or
default) key and direction, paginate with `skip((page-1)*limit)` and
`limit`, and report `totalPages = Math.ceil(count / limit)` and the 1-based
`currentPage`. -/
def listProperties (textSearch : String → Property → Bool) (db : DB)
    (q : ListParams) : ListResult :=
  let sortField := q.sortBy.getD "createdAt"
  let ord := q.order.getD "desc"
  let le := fun a b =>
    if ord == "desc" then decide (sortValue sortField b ≤ sortValue sortField a)
    else decide (sortValue sortField a ≤ sortValue sortField b)
  let matched := db.properties.filter (matchesQuery textSearch q)
  let sorted := sortProperties le matched
  { items := (sorted.drop ((q.page - 1) * q.limit)).take q.limit,
    totalPages := natCeilDiv matched.length q.limit,
    currentPage := q.page,
    total := matched.length }

/-- `property.save()` after mutating the document found by id: replace the
stored document that carries the same id. -/
def saveFirstProperty : List Property → Property → List Property
  | [], _ => []
  | q :: rest, p => if q.id == p.id then p :: rest else q :: saveFirstProperty rest p

/-- GET /api/properties/:id: lookup, increment `views`, save. -/
def getPropertyById (db : DB) (pid : Nat) : Response × DB :=
  match findProperty db pid with
  | none => (mkResp 404 false "Property not found", db)
  | some p =>
    (mkResp 200 true "",
     { db with properties := saveFirstProperty db.properties { p with views := p.views + 1 } })

/-- `k` repetitions of GET /api/properties/:id, threading the store. -/
def iterGetProperty (pid : Nat) (db : DB) : Nat → DB
  | 0 => db
  | Nat.succ k => (getPropertyById (iterGetProperty pid db k) pid).2

/-- Fixture: an available property priced 100, owned by user 2. -/
def propFix : Property :=
  { id := 1, title := "Flat", description := "Nice", price := 100,
    location := { address := "1 Main", city := "Rome", country := "IT" },
    images := [], propertyType := "apartment", bedrooms := none,
    owner := 2, isAvailable := true, views := 0, createdAt := 0 }

/-- Fixture: a pending booking of user 3 on property 1, Jan 1 to Jan 5 of
2024 (epoch milliseconds). -/
def bookFix : Booking :=
  { id := 1, property := 1, user := 3,
    checkIn := 1704067200000, checkOut := 1704412800000,
    guests := 2, totalPrice := 400, status := "pending",
    paymentStatus := "pending", specialRequests := none,
    cancellationReason := none, cancelledAt := none }

/-- Fixture: store with the property and the pending booking. -/
def dbFix : DB := { properties := [propFix], bookings := [bookFix] }

/-- Fixture: store with the property and no bookings. -/
def dbEmpty : DB := { properties := [propFix], bookings := [] }

/-- The booking fields that PUT /api/bookings/:id can never touch. -/
def frameFields (b : Booking) :
    Nat × Nat × Nat × Int × Int × Int × Int × Option String :=
  (b.id, b.property, b.user, b.checkIn, b.checkOut, b.guests, b.totalPrice,
   b.specialRequests)

/-- Fixture: an oracle making every unlink or destroy fail. -/
def alwaysFailing : String → Bool := fun q => q == q

/-- Fixture: an oracle making every unlink or destroy succeed. -/
def neverFailing : String → Bool := fun q => q != q

/-- Fixture: property 1 owned by user 1 with one stored local image. -/
def propImgFix : Property :=
  { id := 1, title := "Flat", description := "Nice", price := 100,
    location := { address := "1 Main", city := "Rome", country := "IT" },
    images := ["/uploads/properties/a.jpg"], propertyType := "apartment",
    bedrooms := none, owner := 1, isAvailable := true, views := 0,
    createdAt := 0 }

/-- Fixture: store with the one-image property. -/
def dbImgFix : DB := { properties := [propImgFix], bookings := [] }

/-- Fixture: asset stores holding the one local image and no cloud asset. -/
def assetsFix : AssetState :=
  { localFiles := ["/uploads/properties/a.jpg"], cloudAssets := [] }

/-- No asset-store operation involved in rolling back the given uploads
fails: in Cloudinary mode every destroy of an uploaded filename succeeds,
in local mode every unlink of an uploaded path succeeds. -/
def cleanupSucceeds (useCloudinary : Bool)
    (unlinkFails destroyFails : String → Bool)
    (files : List UploadedFile) : Prop :=
  if useCloudinary then
    ∀ f ∈ files, ∀ fn, UploadedFile.filename f = some fn → destroyFails fn = false
  else
    ∀ f ∈ files, unlinkFails (UploadedFile.path f) = false

/-- Every uploaded image is gone from the asset store of the active mode. -/
def uploadsRemoved (useCloudinary : Bool) (files : List UploadedFile)
    (st : AssetState) : Prop :=
  if useCloudinary then
    ∀ f ∈ files, ∀ fn, UploadedFile.filename f = some fn → fn ∉ st.cloudAssets
  else
    ∀ f ∈ files, UploadedFile.path f ∉ st.localFiles

/-- Fixture: one uploaded file, present on local disk and in the cloud
store under its public id. -/
def uploadFix : UploadedFile :=
  { path := "/tmp/u1.jpg", filename := some "prop-u1" }

/-- Fixture: asset stores holding the uploaded file in both modes. -/
def assetsUploadFix : AssetState :=
  { localFiles := ["/tmp/u1.jpg"], cloudAssets := ["prop-u1"] }

/-- Fixture: a payload passing the manual validation. -/
def validDataFix : RawPropertyData :=
  { title := some "Flat", description := some "Nice", price := some 100,
    location := some { address := some "1 Main", city := some "Rome",
                       country := some "IT" } }

/-- For a positive divisor, `mathCeilDiv` computes the exact rational
ceiling, which is what `Math.ceil` of the division returns for the integer
operands and magnitudes occurring in the routes. -/
theorem mathCeilDiv_eq_ceil (a b : Int) (hb : 0 < b) :
    mathCeilDiv a b = ⌈(a : ℚ) / (b : ℚ)⌉ := by
  have hbq : (0 : ℚ) < (b : ℚ) := by exact_mod_cast hb
  symm
  rw [Int.ceil_eq_iff]
  have h1 : b * ((a + b - 1) / b) + (a + b - 1) % b = a + b - 1 :=
    Int.ediv_add_emod (a + b - 1) b
  have h2 : 0 ≤ (a + b - 1) % b := Int.emod_nonneg (a + b - 1) (by omega)
  have h3 : (a + b - 1) % b < b := Int.emod_lt_of_pos (a + b - 1) hb
  constructor
  · rw [lt_div_iff₀ hbq]
    have : (mathCeilDiv a b - 1) * b < a := by
      unfold mathCeilDiv
      nlinarith [h1, h2, h3]
    exact_mod_cast this
  · rw [div_le_iff₀ hbq]
    have : a ≤ mathCeilDiv a b * b := by
      unfold mathCeilDiv
      nlinarith [h1, h2, h3]
    exact_mod_cast this

/-- Helper: the successful path of POST /api/bookings, characterized once
and reused by the claim theorems. -/
theorem createBooking_success_eq (db : DB) (actor : Actor)
    (req : CreateBookingReq) (newId : Nat) (prop : Property)
    (hp : findProperty db req.property = some prop)
    (hav : prop.isAvailable = true)
    (hg : 1 ≤ req.guests)
    (hnc : findConflicting db req.property req.checkIn req.checkOut = none)
    (hd : req.checkIn < req.checkOut)
    (hpr : 0 ≤ prop.price)
    (hsr : ∀ s, req.specialRequests = some s → s.length ≤ 500) :
    (createBooking db actor req newId).1
      = mkResp 201 true "Booking created successfully" ∧
    (createBooking db actor req newId).2.bookings
      = db.bookings ++
        [{ id := newId, property := req.property, user := actor.id,
           checkIn := req.checkIn, checkOut := req.checkOut,
           guests := req.guests,
           totalPrice := prop.price * mathCeilDiv (req.checkOut - req.checkIn) msPerDay,
           status := "pending", paymentStatus := "pending",
           specialRequests := req.specialRequests,
           cancellationReason := none, cancelledAt := none }] := by
  have hdays1 : 1 ≤ mathCeilDiv (req.checkOut - req.checkIn) msPerDay := by
    unfold mathCeilDiv msPerDay
    omega
  have htp : 0 ≤ prop.price * mathCeilDiv (req.checkOut - req.checkIn) msPerDay :=
    mul_nonneg hpr (by omega)
  have hng : ¬ (req.guests < 1) := by omega
  have hno : ¬ (req.checkOut ≤ req.checkIn) := by omega
  have hntp : ¬ (prop.price * mathCeilDiv (req.checkOut - req.checkIn) msPerDay < 0) :=
    not_lt.mpr htp
  have hsrb : (match req.specialRequests with
               | some s => decide (s.length > 500)
               | none => false) = false := by
    cases hs : req.specialRequests with
    | none => rfl
    | some s =>
      have h5 := hsr s hs
      simp only [decide_eq_false_iff_not, not_lt]
      omega
  unfold createBooking
  rw [if_neg hng, hp]
  simp only [hav, Bool.not_true, Bool.false_eq_true, if_false, hnc]
  rw [if_neg hno, if_neg hntp, hsrb]
  simp

/-- Helper: the conflict path of POST /api/bookings. -/
theorem createBooking_conflict_eq (db : DB) (actor : Actor)
    (req : CreateBookingReq) (newId : Nat) (prop : Property) (b : Booking)
    (hp : findProperty db req.property = some prop)
    (hav : prop.isAvailable = true)
    (hg : 1 ≤ req.guests)
    (hb : b ∈ db.bookings)
    (hbp : b.property = req.property)
    (hact : isActiveStatus b.status = true)
    (h1 : b.checkIn ≤ req.checkOut)
    (h2 : req.checkIn ≤ b.checkOut) :
    (createBooking db actor req newId).1
      = mkResp 400 false "Property is already booked for selected dates" ∧
    (createBooking db actor req newId).2 = db := by
  have hng : ¬ (req.guests < 1) := by omega
  have hconf : conflictsWith b req.property req.checkIn req.checkOut = true := by
    simp [conflictsWith, hbp, hact, h1, h2]
  have hex : (db.bookings.find?
      (fun x => conflictsWith x req.property req.checkIn req.checkOut)).isSome := by
    rw [List.find?_isSome]
    exact ⟨b, hb, hconf⟩
  obtain ⟨c, hc⟩ := Option.isSome_iff_exists.mp hex
  have hfc : findConflicting db req.property req.checkIn req.checkOut = some c := hc
  unfold createBooking
  rw [if_neg hng, hp]
  simp only [hav, Bool.not_true, Bool.false_eq_true, if_false, hfc]
  simp

/-- C1: a POST /api/bookings request against an available property is
rejected with the 400 "dates unavailable" response whenever some booking on
that property with status pending or confirmed has an interval `[a, b]`
with `a ≤ d` and `b ≥ c` against the requested `[c, d]` (closed-interval
overlap); the store is unchanged, so no booking is created and the
existing booking remains. -/
theorem booking_conflict_rejected (db : DB) (actor : Actor)
    (req : CreateBookingReq) (newId : Nat) (prop : Property) (b : Booking)
    (hp : findProperty db req.property = some prop)
    (hav : prop.isAvailable = true)
    (hg : 1 ≤ req.guests)
    (hb : b ∈ db.bookings)
    (hbp : b.property = req.property)
    (hact : isActiveStatus b.status = true)
    (h1 : b.checkIn ≤ req.checkOut)
    (h2 : req.checkIn ≤ b.checkOut) :
    (createBooking db actor req newId).1
      = mkResp 400 false "Property is already booked for selected dates" ∧
    (createBooking db actor req newId).2 = db ∧
    b ∈ (createBooking db actor req newId).2.bookings := by
  obtain ⟨hr, hs⟩ := createBooking_conflict_eq db actor req newId prop b
    hp hav hg hb hbp hact h1 h2
  exact ⟨hr, hs, by rw [hs]; exact hb⟩

/-- Witness for C1: with a pending Jan 1 to Jan 5 booking on property 1, a
Jan 4 to Jan 8 request of another user is answered 400 with the conflict
message and the store is untouched. -/
theorem booking_conflict_rejected_witness :
    (createBooking dbFix { id := 4, role := "user" }
       { property := 1, checkIn := 1704326400000, checkOut := 1704672000000,
         guests := 1 } 9).1
      = mkResp 400 false "Property is already booked for selected dates" ∧
    (createBooking dbFix { id := 4, role := "user" }
       { property := 1, checkIn := 1704326400000, checkOut := 1704672000000,
         guests := 1 } 9).2 = dbFix ∧
    bookFix ∈ (createBooking dbFix { id := 4, role := "user" }
       { property := 1, checkIn := 1704326400000, checkOut := 1704672000000,
         guests := 1 } 9).2.bookings :=
  booking_conflict_rejected dbFix { id := 4, role := "user" }
    { property := 1, checkIn := 1704326400000, checkOut := 1704672000000,
      guests := 1 } 9 propFix bookFix
    (by decide) (by decide) (by decide) (by decide) (by decide) (by decide)
    (by decide) (by decide)

/-- C2: a successful POST /api/bookings persists the booking with
`totalPrice = price * ⌈(checkOut - checkIn) / 86400000⌉`, status pending
and paymentStatus pending. -/
theorem booking_created_price_pending (db : DB) (actor : Actor)
    (req : CreateBookingReq) (newId : Nat) (prop : Property)
    (hp : findProperty db req.property = some prop)
    (hav : prop.isAvailable = true)
    (hg : 1 ≤ req.guests)
    (hnc : findConflicting db req.property req.checkIn req.checkOut = none)
    (hd : req.checkIn < req.checkOut)
    (hpr : 0 ≤ prop.price)
    (hsr : ∀ s, req.specialRequests = some s → s.length ≤ 500) :
    (createBooking db actor req newId).1.status = 201 ∧
    (createBooking db actor req newId).2.bookings
      = db.bookings ++
        [{ id := newId, property := req.property, user := actor.id,
           checkIn := req.checkIn, checkOut := req.checkOut,
           guests := req.guests,
           totalPrice := prop.price
             * ⌈((req.checkOut - req.checkIn : Int) : ℚ) / ((msPerDay : Int) : ℚ)⌉,
           status := "pending", paymentStatus := "pending",
           specialRequests := req.specialRequests,
           cancellationReason := none, cancelledAt := none }] := by
  obtain ⟨hr, hs⟩ := createBooking_success_eq db actor req newId prop
    hp hav hg hnc hd hpr hsr
  rw [← mathCeilDiv_eq_ceil (req.checkOut - req.checkIn) msPerDay
    (by decide : (0 : Int) < msPerDay)]
  exact ⟨by rw [hr]; rfl, hs⟩

/-- Witness for C2, the scenario of the spec: price 100, check-in
2024-01-01, check-out 2024-01-04 give a 201 and a persisted totalPrice of
300 with both statuses pending. -/
theorem booking_created_price_pending_witness :
    ((createBooking dbEmpty { id := 4, role := "user" }
        { property := 1, checkIn := 1704067200000, checkOut := 1704326400000,
          guests := 1 } 9).1.status = 201 ∧
     (createBooking dbEmpty { id := 4, role := "user" }
        { property := 1, checkIn := 1704067200000, checkOut := 1704326400000,
          guests := 1 } 9).2.bookings
       = dbEmpty.bookings ++
         [{ id := 9, property := 1, user := 4,
            checkIn := 1704067200000, checkOut := 1704326400000,
            guests := 1,
            totalPrice := propFix.price
              * ⌈((1704326400000 - 1704067200000 : Int) : ℚ) / ((msPerDay : Int) : ℚ)⌉,
            status := "pending", paymentStatus := "pending",
            specialRequests := none,
            cancellationReason := none, cancelledAt := none }]) ∧
    (createBooking dbEmpty { id := 4, role := "user" }
        { property := 1, checkIn := 1704067200000, checkOut := 1704326400000,
          guests := 1 } 9).2.bookings.map Booking.totalPrice = [300] :=
  ⟨booking_created_price_pending dbEmpty { id := 4, role := "user" }
     { property := 1, checkIn := 1704067200000, checkOut := 1704326400000,
       guests := 1 } 9 propFix
     (by decide) (by decide) (by decide) (by decide) (by decide) (by decide)
     (by intro s hs; cases hs),
   by decide⟩

/-- Counterexample for C4: the claim says a request with
`checkOut <= checkIn` is rejected before the date-conflict check is
evaluated. At a concrete input with a conflicting active booking, the very
same `checkIn = checkOut` request is answered by the conflict check (400,
conflict message), and on a conflict-free store it is rejected only by the
schema hook inside `Booking.create`, surfacing as a 500 — so the
`checkOut <= checkIn` rejection happens after the conflict check, not
before it. -/
theorem checkout_le_checkin_order_cex :
    (createBooking dbFix { id := 4, role := "user" }
       { property := 1, checkIn := 1704326400000, checkOut := 1704326400000,
         guests := 1 } 9).1
      = mkResp 400 false "Property is already booked for selected dates" ∧
    (createBooking dbEmpty { id := 4, role := "user" }
       { property := 1, checkIn := 1704326400000, checkOut := 1704326400000,
         guests := 1 } 9).1
      = mkResp 500 false "Check-out date must be after check-in date" :=
  ⟨by decide, by decide⟩

/-- C4 as amended: a POST /api/bookings request with `checkOut <= checkIn`
is always rejected and never creates a booking, but the rejection is not
ordered before the conflict check — with a conflicting booking the request
fails on the conflict, otherwise on the schema hook at create time; a
request with `checkOut = checkIn + 1` millisecond is accepted subject to
the conflict check. -/
theorem checkout_le_checkin_rejected (db : DB) (actor : Actor)
    (req : CreateBookingReq) (newId : Nat) :
    (req.checkOut ≤ req.checkIn →
       (createBooking db actor req newId).1.success = false ∧
       (createBooking db actor req newId).2 = db) ∧
    (∀ prop, req.checkOut = req.checkIn + 1 →
       findProperty db req.property = some prop →
       prop.isAvailable = true → 1 ≤ req.guests → 0 ≤ prop.price →
       (∀ s, req.specialRequests = some s → s.length ≤ 500) →
       findConflicting db req.property req.checkIn req.checkOut = none →
       (createBooking db actor req newId).1.status = 201) := by
  constructor
  · intro hle
    simp only [createBooking]
    repeat' split
    all_goals first
      | exact ⟨rfl, rfl⟩
      | omega
  · intro prop heq hp hav hg hpr hsr hnc
    obtain ⟨hr, hs⟩ := createBooking_success_eq db actor req newId prop
      hp hav hg hnc (by omega) hpr hsr
    rw [hr]
    rfl

/-- Witness for C4 as amended: a `checkIn = checkOut` request on the empty
store is rejected with no state change, and the same dates stretched by one
millisecond are accepted with a 201. -/
theorem checkout_le_checkin_rejected_witness :
    ((createBooking dbEmpty { id := 4, role := "user" }
        { property := 1, checkIn := 1704067200000, checkOut := 1704067200000,
          guests := 1 } 9).1.success = false ∧
     (createBooking dbEmpty { id := 4, role := "user" }
        { property := 1, checkIn := 1704067200000, checkOut := 1704067200000,
          guests := 1 } 9).2 = dbEmpty) ∧
    (createBooking dbEmpty { id := 4, role := "user" }
       { property := 1, checkIn := 1704067200000, checkOut := 1704067200001,
         guests := 1 } 9).1.status = 201 :=
  ⟨(checkout_le_checkin_rejected dbEmpty { id := 4, role := "user" }
      { property := 1, checkIn := 1704067200000, checkOut := 1704067200000,
        guests := 1 } 9).1 (by decide),
   (checkout_le_checkin_rejected dbEmpty { id := 4, role := "user" }
      { property := 1, checkIn := 1704067200000, checkOut := 1704067200001,
        guests := 1 } 9).2 propFix (by decide) (by decide) (by decide)
     (by decide) (by decide) (by intro s hs; cases hs) (by decide)⟩

/-- Helper: a truthy optional string is a nonempty one. -/
theorem jsTruthy_some_iff (s : String) : jsTruthy (some s) = true ↔ s ≠ "" := by
  simp [jsTruthy]

/-- Helper: any of the three authorization facts makes the 403 guard of
PUT /api/bookings/:id false. -/
theorem updateAuthFalse (b : Booking) (prop : Property) (actor : Actor)
    (h : b.user = actor.id ∨ prop.owner = actor.id ∨ actor.role = "admin") :
    (!(b.user == actor.id) && !(prop.owner == actor.id)
      && !(actor.role == "admin")) = false := by
  rcases h with h | h | h <;> simp [h]

/-- Helper: the assembled `updateData` passes the update validators when
each field it can carry is valid. -/
theorem validUpdateData_build (req : UpdateReq) (now : Int) (canSet : Bool)
    (hsv : ∀ s, req.status = some s → s ≠ "" → statusValues.contains s = true)
    (hpv : ∀ t, req.paymentStatus = some t → t ≠ "" → canSet = true →
       paymentValues.contains t = true)
    (hcr : ∀ r, req.cancellationReason = some r → r.length ≤ 500) :
    validUpdateData (buildUpdateData req now canSet) = true := by
  unfold validUpdateData buildUpdateData
  simp only [Bool.and_eq_true]
  refine ⟨⟨?_, ?_⟩, ?_⟩
  · by_cases hj : jsTruthy req.status = true
    · rw [if_pos hj]
      cases hst : req.status with
      | none => rfl
      | some s =>
        have hs0 : s ≠ "" := by rw [hst] at hj; simpa [jsTruthy] using hj
        exact hsv s hst hs0
    · rw [if_neg hj]
  · by_cases hjp : jsTruthy req.paymentStatus = true ∧ canSet = true
    · rw [if_pos hjp]
      cases hpt : req.paymentStatus with
      | none => rfl
      | some t =>
        obtain ⟨hj1, hc1⟩ := hjp
        exact hpv t hpt (by rw [hpt] at hj1; simpa [jsTruthy] using hj1) hc1
    · rw [if_neg hjp]
  · by_cases hcc : (jsTruthy req.status = true
        ∧ (req.status == some "cancelled") = true)
        ∧ jsTruthy req.cancellationReason = true
    · rw [if_pos hcc]
      cases hrr : req.cancellationReason with
      | none => rfl
      | some r => exact decide_eq_true (hcr r hrr)
    · rw [if_neg hcc]

/-- Helper: the successful path of PUT /api/bookings/:id. -/
theorem updateBooking_success_eq (db : DB) (bid : Nat) (actor : Actor)
    (req : UpdateReq) (now : Int) (b : Booking) (prop : Property)
    (hb : findBooking db bid = some b)
    (hp : findProperty db b.property = some prop)
    (hauth : b.user = actor.id ∨ prop.owner = actor.id ∨ actor.role = "admin")
    (hv : validUpdateData (buildUpdateData req now
        ((prop.owner == actor.id) || (actor.role == "admin"))) = true) :
    (updateBooking db bid actor req now).1
      = mkResp 200 true "Booking updated successfully" ∧
    (updateBooking db bid actor req now).2
      = { db with bookings :=
          db.bookings.map (fun q => if q.id == bid then
            applyBookingUpdate q (buildUpdateData req now
              ((prop.owner == actor.id) || (actor.role == "admin")))
            else q) } := by
  have hg := updateAuthFalse b prop actor hauth
  unfold updateBooking
  simp only [hb, hp]
  simp only [hg, Bool.false_eq_true, if_false, hv, if_true]
  exact ⟨trivial, trivial⟩

/-- Helper: the store after PUT /api/bookings/:id is either unchanged or
the per-id application of the assembled `updateData`. -/
theorem updateBooking_snd_cases (db : DB) (bid : Nat) (actor : Actor)
    (req : UpdateReq) (now : Int) :
    (updateBooking db bid actor req now).2 = db ∨
    ∃ b prop, findBooking db bid = some b ∧
      findProperty db b.property = some prop ∧
      (updateBooking db bid actor req now).2.bookings
        = db.bookings.map (fun q => if q.id == bid then
            applyBookingUpdate q (buildUpdateData req now
              ((prop.owner == actor.id) || (actor.role == "admin")))
            else q) := by
  cases hfb : findBooking db bid with
  | none =>
    left
    simp only [updateBooking, hfb]
  | some b =>
    cases hfp : findProperty db b.property with
    | none =>
      left
      simp only [updateBooking, hfb, hfp]
    | some prop =>
      by_cases hauth : (!(b.user == actor.id) && !(prop.owner == actor.id)
          && !(actor.role == "admin")) = true
      · left
        simp only [updateBooking, hfb, hfp, hauth, if_true]
      · simp only [Bool.not_eq_true] at hauth
        by_cases hv : validUpdateData (buildUpdateData req now
            ((prop.owner == actor.id) || (actor.role == "admin"))) = true
        · right
          refine ⟨b, prop, rfl, hfp, ?_⟩
          simp only [updateBooking, hfb, hfp, hauth, Bool.false_eq_true,
            if_false, hv, if_true]
        · simp only [Bool.not_eq_true] at hv
          left
          simp only [updateBooking, hfb, hfp, hauth, Bool.false_eq_true,
            if_false, hv]

/-- Helper: whenever the acting identity is not an admin and does not own
the referenced property, PUT /api/bookings/:id leaves every stored
paymentStatus unchanged. -/
theorem updateBooking_paymentStatus_unchanged (db : DB) (bid : Nat)
    (actor : Actor) (req : UpdateReq) (now : Int)
    (hna : actor.role ≠ "admin")
    (hnpo : ∀ b prop, findBooking db bid = some b →
       findProperty db b.property = some prop → prop.owner ≠ actor.id) :
    (updateBooking db bid actor req now).2.bookings.map Booking.paymentStatus
      = db.bookings.map Booking.paymentStatus := by
  rcases updateBooking_snd_cases db bid actor req now with h | ⟨b, prop, hb, hp, h⟩
  · rw [h]
  · rw [h, List.map_map]
    apply List.map_congr_left
    intro q hq
    have h1 : (prop.owner == actor.id) = false := by
      simp [hnpo b prop hb hp]
    have h2 : (actor.role == "admin") = false := by simp [hna]
    by_cases hqi : (q.id == bid) = true
    · simp [Function.comp, hqi, applyBookingUpdate, buildUpdateData, h1, h2]
    · simp [Function.comp, hqi]

/-- C3: a PUT /api/bookings/:id request whose caller is the booking user
but neither the property owner nor an admin succeeds with 200, never
applies a supplied paymentStatus (every stored paymentStatus is unchanged),
and still applies the supplied status to the targeted booking; moreover,
for every caller who is neither the property owner nor an admin, no stored
paymentStatus ever changes. -/
theorem payment_status_owner_admin_only (db : DB) (bid : Nat) (actor : Actor)
    (req : UpdateReq) (now : Int) (b : Booking) (prop : Property) (s : String)
    (hb : findBooking db bid = some b)
    (hp : findProperty db b.property = some prop)
    (hown : b.user = actor.id)
    (hnpo : prop.owner ≠ actor.id)
    (hna : actor.role ≠ "admin")
    (hs : req.status = some s)
    (hs0 : s ≠ "")
    (hsv : statusValues.contains s = true)
    (hcr : ∀ r, req.cancellationReason = some r → r.length ≤ 500) :
    (updateBooking db bid actor req now).1.status = 200 ∧
    (updateBooking db bid actor req now).2.bookings.map Booking.paymentStatus
      = db.bookings.map Booking.paymentStatus ∧
    (∀ q ∈ (updateBooking db bid actor req now).2.bookings,
       q.id = bid → q.status = s) ∧
    (∀ db2 bid2 actor2 req2 now2, Actor.role actor2 ≠ "admin" →
       (∀ b2 prop2, findBooking db2 bid2 = some b2 →
          findProperty db2 b2.property = some prop2 →
          Property.owner prop2 ≠ Actor.id actor2) →
       (updateBooking db2 bid2 actor2 req2 now2).2.bookings.map Booking.paymentStatus
         = db2.bookings.map Booking.paymentStatus) := by
  have h1 : (prop.owner == actor.id) = false := by simp [hnpo]
  have h2 : (actor.role == "admin") = false := by simp [hna]
  have hv : validUpdateData (buildUpdateData req now
      ((prop.owner == actor.id) || (actor.role == "admin"))) = true := by
    apply validUpdateData_build
    · intro s2 hs2 hs2n
      rw [hs] at hs2
      cases hs2
      exact hsv
    · intro t ht htn hcs
      rw [h1, h2] at hcs
      cases hcs
    · exact hcr
  obtain ⟨hr, hsnd⟩ := updateBooking_success_eq db bid actor req now b prop
    hb hp (Or.inl hown) hv
  refine ⟨by rw [hr]; rfl, ?_, ?_, ?_⟩
  · exact updateBooking_paymentStatus_unchanged db bid actor req now hna
      (by intro b2 prop2 hb2 hp2
          rw [hb] at hb2
          cases hb2
          rw [hp] at hp2
          cases hp2
          exact hnpo)
  · intro q hq hqid
    rw [hsnd] at hq
    simp only [List.mem_map] at hq
    obtain ⟨q0, hq0, hq0e⟩ := hq
    by_cases hq0i : (q0.id == bid) = true
    · rw [if_pos hq0i] at hq0e
      rw [← hq0e]
      have hus : (buildUpdateData req now
          ((prop.owner == actor.id) || (actor.role == "admin"))).status = some s := by
        simp [buildUpdateData, hs, jsTruthy, hs0]
      simp [applyBookingUpdate, hus]
    · rw [if_neg hq0i] at hq0e
      rw [← hq0e] at hqid
      rw [hqid] at hq0i
      simp at hq0i
  · intro db2 bid2 actor2 req2 now2 hna2 hnpo2
    exact updateBooking_paymentStatus_unchanged db2 bid2 actor2 req2 now2
      hna2 hnpo2

/-- Witness for C3: user 3 owns the booking on the property of user 2; a
request carrying both a status and a paymentStatus updates the status to
confirmed while the paymentStatus stays pending. -/
theorem payment_status_owner_admin_only_witness :
    (updateBooking dbFix 1 { id := 3, role := "user" }
       { status := some "confirmed", paymentStatus := some "paid" } 77).1.status
      = 200 ∧
    (updateBooking dbFix 1 { id := 3, role := "user" }
       { status := some "confirmed", paymentStatus := some "paid" } 77).2.bookings.map
         Booking.paymentStatus
      = dbFix.bookings.map Booking.paymentStatus ∧
    (∀ q ∈ (updateBooking dbFix 1 { id := 3, role := "user" }
       { status := some "confirmed", paymentStatus := some "paid" } 77).2.bookings,
       q.id = 1 → q.status = "confirmed") ∧
    (∀ db2 bid2 actor2 req2 now2, Actor.role actor2 ≠ "admin" →
       (∀ b2 prop2, findBooking db2 bid2 = some b2 →
          findProperty db2 b2.property = some prop2 →
          Property.owner prop2 ≠ Actor.id actor2) →
       (updateBooking db2 bid2 actor2 req2 now2).2.bookings.map Booking.paymentStatus
         = db2.bookings.map Booking.paymentStatus) :=
  payment_status_owner_admin_only dbFix 1 { id := 3, role := "user" }
    { status := some "confirmed", paymentStatus := some "paid" } 77
    bookFix propFix "confirmed"
    (by decide) (by decide) (by decide) (by decide) (by decide) (by decide)
    (by decide) (by decide) (by intro r hr; cases hr)

/-- C7: an authorized PUT /api/bookings/:id that sets status to cancelled
stamps `cancelledAt` with the current time on the targeted booking and
records a supplied nonempty cancellationReason; and for every request whose
status is not the string cancelled, no stored `cancelledAt` changes. -/
theorem booking_cancel_stamps (db : DB) (bid : Nat) (actor : Actor)
    (req : UpdateReq) (now : Int) (b : Booking) (prop : Property)
    (hb : findBooking db bid = some b)
    (hp : findProperty db b.property = some prop)
    (hauth : b.user = actor.id ∨ prop.owner = actor.id ∨ actor.role = "admin")
    (hs : req.status = some "cancelled")
    (hcr : ∀ r, req.cancellationReason = some r → r.length ≤ 500)
    (hpv : ∀ t, req.paymentStatus = some t → t ≠ "" →
       paymentValues.contains t = true) :
    (updateBooking db bid actor req now).1.status = 200 ∧
    (∀ q ∈ (updateBooking db bid actor req now).2.bookings, q.id = bid →
       q.cancelledAt = some now ∧
       ∀ r, req.cancellationReason = some r → r ≠ "" →
         q.cancellationReason = some r) ∧
    (∀ db2 bid2 actor2 req2 now2, UpdateReq.status req2 ≠ some "cancelled" →
       (updateBooking db2 bid2 actor2 req2 now2).2.bookings.map Booking.cancelledAt
         = db2.bookings.map Booking.cancelledAt) := by
  have hv : validUpdateData (buildUpdateData req now
      ((prop.owner == actor.id) || (actor.role == "admin"))) = true := by
    apply validUpdateData_build
    · intro s2 hs2 hs2n
      rw [hs] at hs2
      cases hs2
      decide
    · intro t ht htn hcs
      exact hpv t ht htn
    · exact hcr
  obtain ⟨hr, hsnd⟩ := updateBooking_success_eq db bid actor req now b prop
    hb hp hauth hv
  refine ⟨by rw [hr]; rfl, ?_, ?_⟩
  · intro q hq hqid
    rw [hsnd] at hq
    simp only [List.mem_map] at hq
    obtain ⟨q0, hq0, hq0e⟩ := hq
    by_cases hq0i : (q0.id == bid) = true
    · rw [if_pos hq0i] at hq0e
      rw [← hq0e]
      have huc : (buildUpdateData req now
          ((prop.owner == actor.id) || (actor.role == "admin"))).cancelledAt
          = some now := by
        simp [buildUpdateData, hs, jsTruthy]
      constructor
      · simp [applyBookingUpdate, huc]
      · intro r hrr hrn
        have hucr : (buildUpdateData req now
            ((prop.owner == actor.id) || (actor.role == "admin"))).cancellationReason
            = some r := by
          simp [buildUpdateData, hs, hrr, jsTruthy, hrn]
        simp [applyBookingUpdate, hucr]
    · rw [if_neg hq0i] at hq0e
      rw [← hq0e] at hqid
      rw [hqid] at hq0i
      simp at hq0i
  · intro db2 bid2 actor2 req2 now2 hne
    rcases updateBooking_snd_cases db2 bid2 actor2 req2 now2 with h | ⟨b2, prop2, hb2, hp2, h⟩
    · rw [h]
    · rw [h, List.map_map]
      apply List.map_congr_left
      intro q hq
      have hbe : (UpdateReq.status req2 == some "cancelled") = false := by
        simpa using hne
      by_cases hqi : (q.id == bid2) = true
      · simp [Function.comp, hqi, applyBookingUpdate, buildUpdateData, hbe]
      · simp [Function.comp, hqi]

/-- Witness for C7: the booking user cancels with a reason; the stored
booking carries `cancelledAt = 77` and the reason. -/
theorem booking_cancel_stamps_witness :
    (updateBooking dbFix 1 { id := 3, role := "user" }
       { status := some "cancelled", cancellationReason := some "sick" } 77).1.status
      = 200 ∧
    (∀ q ∈ (updateBooking dbFix 1 { id := 3, role := "user" }
       { status := some "cancelled", cancellationReason := some "sick" } 77).2.bookings,
       q.id = 1 →
       q.cancelledAt = some 77 ∧
       ∀ r, ({ status := some "cancelled",
               cancellationReason := some "sick" } : UpdateReq).cancellationReason
              = some r → r ≠ "" → q.cancellationReason = some r) ∧
    (∀ db2 bid2 actor2 req2 now2, UpdateReq.status req2 ≠ some "cancelled" →
       (updateBooking db2 bid2 actor2 req2 now2).2.bookings.map Booking.cancelledAt
         = db2.bookings.map Booking.cancelledAt) :=
  booking_cancel_stamps dbFix 1 { id := 3, role := "user" }
    { status := some "cancelled", cancellationReason := some "sick" } 77
    bookFix propFix (by decide) (by decide) (by decide) (by decide)
    (by intro r hr; cases hr; decide) (by intro t ht; cases ht)

/-- C10: PUT /api/bookings/:id changes at most status, cancelledAt,
cancellationReason and paymentStatus — the id, property, user, checkIn,
checkOut, guests, totalPrice and specialRequests of every stored booking
are untouched whatever the body contains — and an authorized request whose
body carries none of the recognized fields answers 200 with the store
unchanged. -/
theorem booking_update_frame (db : DB) (bid : Nat) (actor : Actor)
    (req : UpdateReq) (now : Int) :
    (updateBooking db bid actor req now).2.bookings.map frameFields
      = db.bookings.map frameFields ∧
    (∀ b prop, findBooking db bid = some b →
       findProperty db b.property = some prop →
       (b.user = actor.id ∨ prop.owner = actor.id ∨ actor.role = "admin") →
       jsTruthy req.status = false → jsTruthy req.paymentStatus = false →
       (updateBooking db bid actor req now).1.status = 200 ∧
       (updateBooking db bid actor req now).2 = db) := by
  constructor
  · rcases updateBooking_snd_cases db bid actor req now with h | ⟨b, prop, hb, hp, h⟩
    · rw [h]
    · rw [h, List.map_map]
      apply List.map_congr_left
      intro q hq
      by_cases hqi : (q.id == bid) = true
      · simp [Function.comp, hqi, applyBookingUpdate, frameFields]
      · simp [Function.comp, hqi]
  · intro b prop hb hp hauth hts htp
    have hu : buildUpdateData req now
        ((prop.owner == actor.id) || (actor.role == "admin"))
        = ({} : UpdateData) := by
      simp [buildUpdateData, hts, htp]
    have hv : validUpdateData (buildUpdateData req now
        ((prop.owner == actor.id) || (actor.role == "admin"))) = true := by
      rw [hu]
      rfl
    obtain ⟨hr, hsnd⟩ := updateBooking_success_eq db bid actor req now b prop
      hb hp hauth hv
    constructor
    · rw [hr]
      rfl
    · rw [hsnd, hu]
      have happ : ∀ q : Booking, applyBookingUpdate q ({} : UpdateData) = q :=
        fun q => rfl
      simp only [happ, ite_self, List.map_id, List.map_id']

/-- Witness for C10: an authorized request with an empty body answers 200
and leaves the store exactly as it was, and the frame fields are unchanged. -/
theorem booking_update_frame_witness :
    (updateBooking dbFix 1 { id := 3, role := "user" } {} 77).2.bookings.map
        frameFields
      = dbFix.bookings.map frameFields ∧
    ((updateBooking dbFix 1 { id := 3, role := "user" } {} 77).1.status = 200 ∧
     (updateBooking dbFix 1 { id := 3, role := "user" } {} 77).2 = dbFix) :=
  ⟨(booking_update_frame dbFix 1 { id := 3, role := "user" } {} 77).1,
   (booking_update_frame dbFix 1 { id := 3, role := "user" } {} 77).2
     bookFix propFix (by decide) (by decide) (by decide) (by decide) (by decide)⟩

/-- Helper: replacing the first document carrying the id of the found one
makes the next lookup return the replacement. -/
theorem find_saveFirstProperty (l : List Property) (pid : Nat)
    (p p2 : Property)
    (hfind : l.find? (fun q => q.id == pid) = some p)
    (hid : p2.id = p.id) :
    (saveFirstProperty l p2).find? (fun q => q.id == pid) = some p2 := by
  induction l with
  | nil => simp at hfind
  | cons a rest ih =>
    by_cases ha : (a.id == pid) = true
    · rw [@List.find?_cons_of_pos _ (fun q => q.id == pid) a rest ha] at hfind
      have hap : a = p := by
        injection hfind
      have hap2 : (a.id == p2.id) = true := by
        rw [hid, hap]
        simp
      have hp2pid : (p2.id == pid) = true := by
        rw [hid, ← hap]
        exact ha
      simp only [saveFirstProperty, hap2, if_true]
      rw [@List.find?_cons_of_pos _ (fun q => q.id == pid) p2 rest hp2pid]
    · rw [@List.find?_cons_of_neg _ (fun q => q.id == pid) a rest ha] at hfind
      have hpp : (p.id == pid) = true :=
        @List.find?_some Property (fun q => q.id == pid) p rest hfind
      have hap2 : (a.id == p2.id) = false := by
        have h1 : a.id ≠ pid := by simpa using ha
        have h2 : p.id = pid := by simpa using hpp
        simp [hid, h2, h1]
      simp only [saveFirstProperty, hap2, Bool.false_eq_true, if_false]
      rw [@List.find?_cons_of_neg _ (fun q => q.id == pid) a
        (saveFirstProperty rest p2) ha]
      exact ih hfind

/-- Helper: one successful GET /api/properties/:id answers 200 and stores
the found document with its views raised by one. -/
theorem getPropertyById_step (db : DB) (pid : Nat) (p : Property)
    (h : findProperty db pid = some p) :
    (getPropertyById db pid).1.status = 200 ∧
    findProperty (getPropertyById db pid).2 pid
      = some { p with views := p.views + 1 } := by
  unfold getPropertyById
  simp only [h]
  refine ⟨rfl, ?_⟩
  unfold findProperty at h ⊢
  exact find_saveFirstProperty db.properties pid p _ h rfl

/-- C9: a successful GET /api/properties/:id raises the views counter of
the fetched property by exactly one, and `k` repeated calls raise it by
exactly `k`, so the counter grows monotonically. -/
theorem get_property_increments_views (db : DB) (pid : Nat) (p : Property)
    (h : findProperty db pid = some p) :
    (getPropertyById db pid).1.status = 200 ∧
    findProperty (getPropertyById db pid).2 pid
      = some { p with views := p.views + 1 } ∧
    ∀ k : Nat, findProperty (iterGetProperty pid db k) pid
      = some { p with views := p.views + (k : Int) } := by
  obtain ⟨hst, hone⟩ := getPropertyById_step db pid p h
  refine ⟨hst, hone, ?_⟩
  intro k
  induction k with
  | zero =>
    simpa using h
  | succ k ih =>
    have hstep := (getPropertyById_step (iterGetProperty pid db k) pid
      { p with views := p.views + (k : Int) } ih).2
    have : iterGetProperty pid db (k + 1)
        = (getPropertyById (iterGetProperty pid db k) pid).2 := rfl
    rw [this, hstep]
    congr 1
    simp
    ring

/-- Witness for C9: on the fixture store, one call stores views 1 and five
calls store views 5 for property 1. -/
theorem get_property_increments_views_witness :
    ((getPropertyById dbFix 1).1.status = 200 ∧
     findProperty (getPropertyById dbFix 1).2 1
       = some { propFix with views := propFix.views + 1 } ∧
     ∀ k : Nat, findProperty (iterGetProperty 1 dbFix k) 1
       = some { propFix with views := propFix.views + (k : Int) }) ∧
    findProperty (iterGetProperty 1 dbFix 5) 1
      = some { propFix with views := 5 } :=
  ⟨get_property_increments_views dbFix 1 propFix (by decide),
   by decide⟩

/-- C8: every GET /api/properties response reports
`totalPages = ceil(total / limit)` and the 1-based page number, and a
request without filter or sort parameters returns the unrestricted listing
ordered by creation time descending, paginated from that full list. -/
theorem list_properties_pagination_default
    (textSearch : String → Property → Bool) (db : DB) (q : ListParams) :
    ((listProperties textSearch db q).totalPages
       = natCeilDiv (listProperties textSearch db q).total q.limit ∧
     (listProperties textSearch db q).currentPage = q.page) ∧
    (∀ page limit,
       listProperties textSearch db { page := page, limit := limit }
         = { items := ((sortProperties byCreatedAtDesc db.properties).drop
               ((page - 1) * limit)).take limit,
             totalPages := natCeilDiv db.properties.length limit,
             currentPage := page,
             total := db.properties.length }) := by
  constructor
  · exact ⟨rfl, rfl⟩
  · intro page limit
    have hfil : db.properties.filter
        (matchesQuery textSearch { page := page, limit := limit }) = db.properties :=
      List.filter_eq_self.mpr (fun a _ => rfl)
    have hle : (fun a b =>
        if (("desc" : String) == "desc") = true
        then decide (sortValue "createdAt" b ≤ sortValue "createdAt" a)
        else decide (sortValue "createdAt" a ≤ sortValue "createdAt" b))
        = byCreatedAtDesc := by
      funext a b
      simp [sortValue, byCreatedAtDesc]
    unfold listProperties
    simp only [hfil, Option.getD_none]
    rw [hle]

/-- Helper: a file just unlinked is not on disk. -/
theorem notMem_localUnlink (st : AssetState) (p : String) :
    p ∉ (localUnlink st p).localFiles := by
  simp [localUnlink, List.mem_filter]

/-- Helper: an asset just destroyed is not in the cloud store. -/
theorem notMem_cloudDestroy (st : AssetState) (p : String) :
    p ∉ (cloudDestroy st p).cloudAssets := by
  simp [cloudDestroy, List.mem_filter]

/-- Helper: the local unlink loop never throws when no involved unlink
fails. -/
theorem unlinkEach_no_throw (fails : String → Bool) (paths : List String)
    (st : AssetState) (h : ∀ p ∈ paths, fails p = false) :
    (unlinkEach fails paths st).2 = false := by
  induction paths generalizing st with
  | nil => rfl
  | cons a rest ih =>
    simp only [unlinkEach]
    by_cases he : existsLocal st a = true
    · rw [if_pos he, h a (List.mem_cons_self a rest)]
      simp only [Bool.false_eq_true, if_false]
      exact ih (localUnlink st a) (fun q hq => h q (List.mem_cons_of_mem _ hq))
    · rw [if_neg he]
      exact ih st (fun q hq => h q (List.mem_cons_of_mem _ hq))

/-- Helper: the local unlink loop only removes files. -/
theorem unlinkEach_subset (fails : String → Bool) (paths : List String)
    (st : AssetState) (q : String)
    (h : q ∈ (unlinkEach fails paths st).1.localFiles) :
    q ∈ st.localFiles := by
  induction paths generalizing st with
  | nil => exact h
  | cons a rest ih =>
    simp only [unlinkEach] at h
    by_cases he : existsLocal st a = true
    · rw [if_pos he] at h
      by_cases hf : fails a = true
      · rw [if_pos hf] at h
        exact h
      · simp only [Bool.not_eq_true] at hf
        rw [hf] at h
        simp only [Bool.false_eq_true, if_false] at h
        have := ih (localUnlink st a) h
        simp only [localUnlink, List.mem_filter] at this
        exact this.1
    · rw [if_neg he] at h
      exact ih st h

/-- Helper: when no involved unlink fails, every listed path is gone from
the local store after the loop. -/
theorem unlinkEach_removes (fails : String → Bool) (paths : List String)
    (st : AssetState) (h : ∀ p ∈ paths, fails p = false) :
    ∀ p ∈ paths, p ∉ (unlinkEach fails paths st).1.localFiles := by
  induction paths generalizing st with
  | nil => intro p hp; cases hp
  | cons a rest ih =>
    intro p hp
    simp only [unlinkEach]
    by_cases he : existsLocal st a = true
    · rw [if_pos he, h a (List.mem_cons_self a rest)]
      simp only [Bool.false_eq_true, if_false]
      rcases List.mem_cons.mp hp with rfl | hpr
      · intro hcon
        exact notMem_localUnlink st p
          (unlinkEach_subset fails rest (localUnlink st p) p hcon)
      · exact ih (localUnlink st a)
          (fun x hx => h x (List.mem_cons_of_mem _ hx)) p hpr
    · rw [if_neg he]
      rcases List.mem_cons.mp hp with rfl | hpr
      · intro hcon
        have hmem := unlinkEach_subset fails rest st p hcon
        simp only [Bool.not_eq_true, existsLocal, List.contains] at he
        have : p ∉ st.localFiles := by
          intro hc
          rw [List.elem_eq_true_of_mem hc] at he
          cases he
        exact this hmem
      · exact ih st (fun x hx => h x (List.mem_cons_of_mem _ hx)) p hpr

/-- Helper: the Cloudinary rollback loop only removes assets. -/
theorem destroyUploaded_subset (df : String → Bool)
    (files : List UploadedFile) (st : AssetState) (q : String)
    (h : q ∈ (destroyUploaded df files st).cloudAssets) :
    q ∈ st.cloudAssets := by
  induction files generalizing st with
  | nil => exact h
  | cons f rest ih =>
    simp only [destroyUploaded] at h
    cases hfn : f.filename with
    | none =>
      simp only [hfn] at h
      exact ih st h
    | some fn =>
      simp only [hfn] at h
      by_cases hdf : df fn = true
      · rw [if_pos hdf] at h
        exact ih st h
      · simp only [Bool.not_eq_true] at hdf
        rw [hdf] at h
        simp only [Bool.false_eq_true, if_false] at h
        have := ih (cloudDestroy st fn) h
        simp only [cloudDestroy, List.mem_filter] at this
        exact this.1

/-- Helper: when no involved destroy fails, the public id of every file
that carries a filename is gone from the cloud store after the rollback. -/
theorem destroyUploaded_removes (df : String → Bool)
    (files : List UploadedFile) (st : AssetState)
    (h : ∀ f ∈ files, ∀ fn, f.filename = some fn → df fn = false) :
    ∀ f ∈ files, ∀ fn, f.filename = some fn →
      fn ∉ (destroyUploaded df files st).cloudAssets := by
  induction files generalizing st with
  | nil => intro f hf; cases hf
  | cons g rest ih =>
    intro f hf fn hfn
    simp only [destroyUploaded]
    rcases List.mem_cons.mp hf with rfl | hfr
    · simp only [hfn, h f (List.mem_cons_self f rest) fn hfn]
      simp only [Bool.false_eq_true, if_false]
      intro hcon
      exact notMem_cloudDestroy st fn
        (destroyUploaded_subset df rest (cloudDestroy st fn) fn hcon)
    · cases hgn : g.filename with
      | none =>
        simp only [hgn]
        exact ih st (fun x hx => h x (List.mem_cons_of_mem _ hx)) f hfr fn hfn
      | some gn =>
        simp only [hgn]
        by_cases hdg : df gn = true
        · rw [if_pos hdg]
          exact ih st (fun x hx => h x (List.mem_cons_of_mem _ hx)) f hfr fn hfn
        · simp only [Bool.not_eq_true] at hdg
          rw [hdg]
          simp only [Bool.false_eq_true, if_false]
          exact ih (cloudDestroy st gn)
            (fun x hx => h x (List.mem_cons_of_mem _ hx)) f hfr fn hfn

/-- Counterexample for C5: in local-disk mode a failing `fs.unlinkSync`
during image cleanup surfaces to the caller as a 500 and the property is
not deleted from the database — the asset-store error is neither swallowed
nor does the database deletion proceed. -/
theorem property_delete_local_error_cex :
    (deletePropertyHandler false alwaysFailing neverFailing dbImgFix
       assetsFix { id := 1, role := "user" } 1).1
      = mkResp 500 false "Server error while deleting property" ∧
    (deletePropertyHandler false alwaysFailing neverFailing dbImgFix
       assetsFix { id := 1, role := "user" } 1).2.1 = dbImgFix :=
  ⟨by decide, by decide⟩

/-- Helper: either ownership fact makes the 403 guard of DELETE
/api/properties/:id false. -/
theorem deleteAuthFalse (prop : Property) (actor : Actor)
    (h : prop.owner = actor.id ∨ actor.role = "admin") :
    (prop.owner != actor.id && actor.role != "admin") = false := by
  rcases h with h | h <;> simp [h]

/-- C5 as amended: for an authorized DELETE /api/properties/:id, in
Cloudinary mode destroy rejections are swallowed and the database deletion
always proceeds with a 200, for any pattern of asset-store failures; in
local-disk mode, if the unlink loop throws the request ends 500 with the
property still stored, and if it does not throw the deletion proceeds with
a 200. -/
theorem property_delete_cleanup_modes :
    (∀ (unlinkFails destroyFails : String → Bool) db assets actor pid prop,
       findProperty db pid = some prop →
       (Property.owner prop = Actor.id actor ∨ Actor.role actor = "admin") →
       (deletePropertyHandler true unlinkFails destroyFails db assets actor pid).1
         = mkResp 200 true "Property deleted successfully" ∧
       (deletePropertyHandler true unlinkFails destroyFails db assets actor pid).2.1.properties
         = db.properties.filter (fun p => p.id != pid)) ∧
    (∀ (unlinkFails destroyFails : String → Bool) db assets actor pid prop,
       findProperty db pid = some prop →
       (Property.owner prop = Actor.id actor ∨ Actor.role actor = "admin") →
       ((unlinkEach unlinkFails prop.images assets).2 = true →
          (deletePropertyHandler false unlinkFails destroyFails db assets actor pid).1
            = mkResp 500 false "Server error while deleting property" ∧
          (deletePropertyHandler false unlinkFails destroyFails db assets actor pid).2.1
            = db) ∧
       ((unlinkEach unlinkFails prop.images assets).2 = false →
          (deletePropertyHandler false unlinkFails destroyFails db assets actor pid).1
            = mkResp 200 true "Property deleted successfully" ∧
          (deletePropertyHandler false unlinkFails destroyFails db assets actor pid).2.1.properties
            = db.properties.filter (fun p => p.id != pid))) := by
  constructor
  · intro unlinkFails destroyFails db assets actor pid prop hfp hauth
    have hg := deleteAuthFalse prop actor hauth
    unfold deletePropertyHandler
    simp only [hfp, hg, Bool.false_eq_true, if_false, if_true]
    exact ⟨trivial, trivial⟩
  · intro unlinkFails destroyFails db assets actor pid prop hfp hauth
    have hg := deleteAuthFalse prop actor hauth
    constructor
    · intro hthrew
      unfold deletePropertyHandler
      simp only [hfp, hg, Bool.false_eq_true, if_false, hthrew, if_true]
      exact ⟨trivial, trivial⟩
    · intro hok
      unfold deletePropertyHandler
      simp only [hfp, hg, Bool.false_eq_true, if_false, hok, if_true]
      exact ⟨trivial, trivial⟩

/-- Witness for C5 as amended: in Cloudinary mode with every destroy
failing the property is still deleted with a 200; in local mode the same
store answers 500 under a failing unlink and 200 under a succeeding one. -/
theorem property_delete_cleanup_modes_witness :
    ((deletePropertyHandler true neverFailing alwaysFailing dbImgFix
        assetsFix { id := 1, role := "user" } 1).1
       = mkResp 200 true "Property deleted successfully" ∧
     (deletePropertyHandler true neverFailing alwaysFailing dbImgFix
        assetsFix { id := 1, role := "user" } 1).2.1.properties
       = dbImgFix.properties.filter (fun p => p.id != 1)) ∧
    ((deletePropertyHandler false alwaysFailing neverFailing dbImgFix
        assetsFix { id := 1, role := "user" } 1).1
       = mkResp 500 false "Server error while deleting property" ∧
     (deletePropertyHandler false alwaysFailing neverFailing dbImgFix
        assetsFix { id := 1, role := "user" } 1).2.1 = dbImgFix) ∧
    ((deletePropertyHandler false neverFailing neverFailing dbImgFix
        assetsFix { id := 1, role := "user" } 1).1
       = mkResp 200 true "Property deleted successfully" ∧
     (deletePropertyHandler false neverFailing neverFailing dbImgFix
        assetsFix { id := 1, role := "user" } 1).2.1.properties
       = dbImgFix.properties.filter (fun p => p.id != 1)) :=
  ⟨property_delete_cleanup_modes.1 neverFailing alwaysFailing dbImgFix
     assetsFix { id := 1, role := "user" } 1 propImgFix (by decide) (by decide),
   (property_delete_cleanup_modes.2 alwaysFailing neverFailing dbImgFix
     assetsFix { id := 1, role := "user" } 1 propImgFix (by decide) (by decide)).1
     (by decide),
   (property_delete_cleanup_modes.2 neverFailing neverFailing dbImgFix
     assetsFix { id := 1, role := "user" } 1 propImgFix (by decide) (by decide)).2
     (by decide)⟩

/-- Helper: under `cleanupSucceeds`, the rollback block does not throw and
removes every uploaded image. -/
theorem deleteUploadedFiles_ok (useCloudinary : Bool)
    (unlinkFails destroyFails : String → Bool)
    (files : List UploadedFile) (assets : AssetState)
    (hclean : cleanupSucceeds useCloudinary unlinkFails destroyFails files) :
    (deleteUploadedFiles useCloudinary unlinkFails destroyFails files assets).2
      = false ∧
    uploadsRemoved useCloudinary files
      (deleteUploadedFiles useCloudinary unlinkFails destroyFails files assets).1 := by
  cases useCloudinary with
  | true =>
    simp only [cleanupSucceeds, if_true] at hclean
    simp only [deleteUploadedFiles, uploadsRemoved, if_true]
    exact ⟨trivial, destroyUploaded_removes destroyFails files assets hclean⟩
  | false =>
    simp only [cleanupSucceeds, Bool.false_eq_true, if_false] at hclean
    simp only [deleteUploadedFiles, uploadsRemoved, Bool.false_eq_true, if_false]
    have hmap : ∀ p ∈ files.map (fun f => f.path), unlinkFails p = false := by
      intro p hp
      obtain ⟨f, hf, rfl⟩ := List.mem_map.mp hp
      exact hclean f hf
    refine ⟨unlinkEach_no_throw unlinkFails _ assets hmap, ?_⟩
    intro f hf
    exact unlinkEach_removes unlinkFails _ assets hmap (f.path)
      (List.mem_map_of_mem _ hf)

/-- C6: a POST /api/properties request that fails the manual field
validation answers 400 with the field-level errors and stores nothing, and
one that passes validation but fails persistence answers 500 and stores
nothing; in both cases every uploaded image is rolled back out of the
asset store (assuming the asset store performs the issued deletions). -/
theorem create_property_rollback (useCloudinary : Bool)
    (unlinkFails destroyFails : String → Bool) (persistFails : Bool)
    (db : DB) (assets : AssetState) (actor : Actor) (d : RawPropertyData)
    (files : List UploadedFile) (newId : Nat) (now : Int)
    (hclean : cleanupSucceeds useCloudinary unlinkFails destroyFails files) :
    (validateNewProperty d ≠ [] →
       (createPropertyHandler useCloudinary unlinkFails destroyFails
          persistFails db assets actor d files newId now).1
         = { status := 400, success := false, message := "Validation failed",
             errors := validateNewProperty d } ∧
       (createPropertyHandler useCloudinary unlinkFails destroyFails
          persistFails db assets actor d files newId now).2.1 = db ∧
       uploadsRemoved useCloudinary files
         (createPropertyHandler useCloudinary unlinkFails destroyFails
            persistFails db assets actor d files newId now).2.2) ∧
    (validateNewProperty d = [] → persistFails = true →
       (createPropertyHandler useCloudinary unlinkFails destroyFails
          persistFails db assets actor d files newId now).1
         = mkResp 500 false "Server error while creating property" ∧
       (createPropertyHandler useCloudinary unlinkFails destroyFails
          persistFails db assets actor d files newId now).2.1 = db ∧
       uploadsRemoved useCloudinary files
         (createPropertyHandler useCloudinary unlinkFails destroyFails
            persistFails db assets actor d files newId now).2.2) := by
  obtain ⟨hnothrow, hremoved⟩ := deleteUploadedFiles_ok useCloudinary
    unlinkFails destroyFails files assets hclean
  constructor
  · intro hne
    have hE : (validateNewProperty d).isEmpty = false := by
      cases hEE : (validateNewProperty d).isEmpty
      · rfl
      · exact absurd (List.isEmpty_iff.mp hEE) hne
    unfold createPropertyHandler
    simp only [hE, Bool.false_eq_true, if_false, hnothrow]
    exact ⟨trivial, trivial, hremoved⟩
  · intro heq hpf
    have hE : (validateNewProperty d).isEmpty = true := by
      rw [heq]
      rfl
    unfold createPropertyHandler
    simp only [hE, if_true, hpf, Bool.true_or, if_true]
    exact ⟨trivial, trivial, hremoved⟩

/-- Witness for C6: an empty payload is answered 400 with six field errors
and the uploaded local file is removed; a valid payload whose persistence
fails is answered 500 and the uploaded file is removed as well. -/
theorem create_property_rollback_witness :
    ((createPropertyHandler false neverFailing neverFailing false
        { properties := [], bookings := [] } assetsUploadFix
        { id := 7, role := "user" } {} [uploadFix] 3 0).1
       = { status := 400, success := false, message := "Validation failed",
           errors := validateNewProperty {} } ∧
     (createPropertyHandler false neverFailing neverFailing false
        { properties := [], bookings := [] } assetsUploadFix
        { id := 7, role := "user" } {} [uploadFix] 3 0).2.1
       = { properties := [], bookings := [] } ∧
     uploadsRemoved false [uploadFix]
       (createPropertyHandler false neverFailing neverFailing false
          { properties := [], bookings := [] } assetsUploadFix
          { id := 7, role := "user" } {} [uploadFix] 3 0).2.2) ∧
    ((createPropertyHandler true neverFailing neverFailing true
        { properties := [], bookings := [] } assetsUploadFix
        { id := 7, role := "user" } validDataFix [uploadFix] 3 0).1
       = mkResp 500 false "Server error while creating property" ∧
     (createPropertyHandler true neverFailing neverFailing true
        { properties := [], bookings := [] } assetsUploadFix
        { id := 7, role := "user" } validDataFix [uploadFix] 3 0).2.1
       = { properties := [], bookings := [] } ∧
     uploadsRemoved true [uploadFix]
       (createPropertyHandler true neverFailing neverFailing true
          { properties := [], bookings := [] } assetsUploadFix
          { id := 7, role := "user" } validDataFix [uploadFix] 3 0).2.2) :=
  ⟨(create_property_rollback false neverFailing neverFailing false
      { properties := [], bookings := [] } assetsUploadFix
      { id := 7, role := "user" } {} [uploadFix] 3 0
      (by simp [cleanupSucceeds, neverFailing])).1
     (by decide),
   (create_property_rollback true neverFailing neverFailing true
      { properties := [], bookings := [] } assetsUploadFix
      { id := 7, role := "user" } validDataFix [uploadFix] 3 0
      (by simp [cleanupSucceeds, neverFailing])).2
     (by decide) rfl⟩
